import Mathlib

/-!
Shallow embedding of `facelist.go` (package main of trioni/facelist).

The program is a single HTTP handler (`indexHandler`) that fetches a Slack
member list, filters it (non-deleted, non-bot, email has the configured
suffix), stably sorts it by lower-cased real name, and renders a template.

Embedding conventions:
* Go structs `config`, `UserList`, `User`, `Profile` become Lean structures.
* The filter loop (facelist.go lines 195-201) becomes `filterUsers`.
* `sort.SliceStable` with the strict comparator of lines 204-206 becomes a
  stable merge sort (`List.mergeSort`) with the corresponding non-strict
  comparator `usersLE u v := !(less v u)`; a stable sort by a strict weak
  order and the stable merge sort by the induced total preorder produce the
  same list.
* `strings.HasSuffix` on UTF-8 byte strings becomes a character-level
  suffix test (UTF-8 is self-synchronizing, so byte-suffix and char-suffix
  agree on valid strings); `strings.ToLower` becomes `String.toLower`
  (ASCII lowering, where Go lowers full Unicode; the sorting theorems
  below hold for any key function, so nothing depends on this).
* Effects of the handler (HTTP client, `json.Unmarshal`, template
  execution, `log.Fatal`) are modelled by explicit inputs and an `Outcome`
  type. The fetch result is a handler input; `client.Get` returns an error
  only on transport failure, so an upstream non-2xx response arrives as a
  success value carrying its status code, which the handler never inspects.
  `json.Unmarshal` is an oracle over the body bytes and the previous
  `Members` slice it decodes into, reflecting Go's merge semantics: it
  reports either a parse error, or that the payload had no `members` key
  (the previous members stay in place), or the decoded members array
  (which replaces the slice; decoding may itself read the reused buffer,
  hence the oracle's extra argument). `SlackTeam` is always untouched,
  since the upstream payload has no such key. Template failure is an
  oracle predicate on the rendered data.
-/

namespace Facelist

/-- Go struct `Profile` (facelist.go lines 149-158). -/
structure Profile where
  firstName : String
  lastName : String
  realName : String
  title : String
  image : String
  phone : String
  email : String
  status : String
deriving DecidableEq, Repr

/-- Go struct `User` (facelist.go lines 140-147). -/
structure User where
  name : String
  id : String
  teamId : String
  isBot : Bool
  deleted : Bool
  profile : Profile
deriving DecidableEq, Repr

/-- Go struct `UserList` (facelist.go lines 135-138). -/
structure UserList where
  slackTeam : String
  members : List User
deriving DecidableEq, Repr

/-- Go struct `config` (facelist.go lines 129-133). -/
structure Config where
  emailFilter : String
  slackApiToken : String
  slackTeam : String
deriving DecidableEq, Repr

/-- Model of Go `strings.HasSuffix s suffix`: byte-level suffix test,
rendered at the character level (equivalent on valid UTF-8). -/
def hasSuffix (s suffix : String) : Bool :=
  suffix.data.isSuffixOf s.data

/-- The filter predicate of facelist.go line 198:
`!user.Deleted && !user.IsBot && strings.HasSuffix(user.Profile.Email, cfg.EmailFilter)`. -/
def keepUser (cfg : Config) (user : User) : Bool :=
  !user.deleted && !user.isBot && hasSuffix user.profile.email cfg.emailFilter

/-- The filter loop of facelist.go lines 195-201: iterate over the members in
order, appending each user satisfying `keepUser` to `filteredUsers`. -/
def filterUsers (cfg : Config) (members : List User) : List User :=
  members.filter (keepUser cfg)

/-- The sort key: `strings.ToLower(u.Profile.RealName)` (facelist.go line 205). -/
def userKey (u : User) : String :=
  u.profile.realName.toLower

/-- The strict comparator passed to `sort.SliceStable` (facelist.go lines 204-206):
`strings.ToLower(ri) < strings.ToLower(rj)`. -/
def usersLess (u v : User) : Bool :=
  decide (userKey u < userKey v)

/-- The non-strict comparator induced by `usersLess`: `u` may come before `v`
iff `v` is not strictly less than `u`. -/
def usersLE (u v : User) : Bool :=
  ! usersLess v u

/-- `sort.SliceStable(filteredUsers, less)` (facelist.go lines 204-206),
modelled as the stable merge sort by the induced non-strict comparator. -/
def sortUsers (members : List User) : List User :=
  members.mergeSort usersLE

/-- The upstream HTTP response as seen by the handler: the status code
(`resp.StatusCode`, never inspected by facelist.go), and the body as read by
`ioutil.ReadAll(resp.Body)` (line 187) - the bytes that were read, plus the
read error that the Go code discards into `_`. -/
structure RespBody where
  status : Nat
  bytes : String
  readErr : Option String
deriving DecidableEq, Repr

/-- The result of `client.Get(url)` (facelist.go line 182): either a
transport error (`err != nil`) or a response whose body can then be read.
An upstream HTTP error (non-2xx status) is not a `client.Get` error in Go:
it is a `success` whose `status` records the error code. -/
inductive FetchResult where
  | failure (err : String)
  | success (resp : RespBody)
deriving DecidableEq, Repr

/-- The exact message written by `http.Error` on template failure
(facelist.go line 211). -/
def oopsMessage : String :=
  "Oops. That's embarrassing. Please try again later."

/-- What one invocation of `indexHandler` does, observationally:
* `fetchError err`  - `http.Error(w, err.Error(), 500)` and return (lines 183-186);
* `parseFatal err`  - `log.Fatal(err)`: process exits, nothing written (lines 190-192);
* `templateError`   - `IndexTemplate.Execute` failed, `http.Error(w, oopsMessage, 500)` (lines 209-212);
* `page ul`         - `IndexTemplate.Execute(w, ul)` succeeded: HTTP 200 with the rendered list. -/
inductive Outcome where
  | fetchError (err : String)
  | parseFatal (err : String)
  | templateError
  | page (ul : UserList)
deriving DecidableEq, Repr

/-- The HTTP status code of the response, `none` when the process dies before
responding. -/
def Outcome.status : Outcome → Option Nat
  | .fetchError _ => some 500
  | .parseFatal _ => none
  | .templateError => some 500
  | .page _ => some 200

/-- The body written by `http.Error` for the error outcomes; `none` for the
fatal exit (nothing written) and for the rendered page (template output). -/
def Outcome.errorText : Outcome → Option String
  | .fetchError err => some err
  | .parseFatal _ => none
  | .templateError => some oopsMessage
  | .page _ => none

/-- Whether `IndexTemplate.Execute` was reached on this path. -/
def Outcome.templateInvoked : Outcome → Bool
  | .fetchError _ => false
  | .parseFatal _ => false
  | .templateError => true
  | .page _ => true

/-- Whether any HTTP response is produced at all. -/
def Outcome.respondsHTTP : Outcome → Bool
  | .parseFatal _ => false
  | _ => true

/-- Whether the outcome is the fetch-error path of lines 183-186. -/
def Outcome.isFetchError : Outcome → Bool
  | .fetchError _ => true
  | _ => false

/-- Effect of `json.Unmarshal(body, &userlist)` (facelist.go line 189) on the
process-wide `userlist` when parsing succeeds. Go merges into the existing
struct: with `parsed = some ms` the payload carried a `members` key and the
slice is replaced by the decoded array `ms`; with `parsed = none` the payload
had no `members` key and the previous members are left in place. `SlackTeam`
is always left as is because the upstream JSON carries no matching key. -/
def unmarshalInto (prev : UserList) (parsed : Option (List User)) : UserList :=
  { slackTeam := prev.slackTeam, members := parsed.getD prev.members }

/-- `indexHandler` (facelist.go lines 177-213). Inputs model the effects:
`prev` is the process-wide `userlist` before the request, `fetch` the result
of `client.Get`, `parse` the `json.Unmarshal` oracle applied to the body
bytes and to the previous members slice it decodes into (`.error e` on
malformed JSON; `.ok none` when the payload has no `members` key; `.ok (some
ms)` when it decodes a members array `ms`), `tmplFails` the
template-execution-failure oracle. Returns the observable outcome and the
process-wide `userlist` afterwards. -/
def indexHandler (cfg : Config) (prev : UserList) (fetch : FetchResult)
    (parse : String → List User → Except String (Option (List User)))
    (tmplFails : UserList → Bool) : Outcome × UserList :=
  match fetch with
  | .failure err => (.fetchError err, prev)
  | .success resp =>
    let body := resp.bytes
    match parse body prev.members with
    | .error e => (.parseFatal e, prev)
    | .ok parsed =>
      let ul := unmarshalInto prev parsed
      let filteredUsers := filterUsers cfg ul.members
      let sorted := sortUsers filteredUsers
      let ul' : UserList := { ul with members := sorted }
      if tmplFails ul' then (.templateError, ul') else (.page ul', ul')

theorem usersLE_iff (u v : User) : usersLE u v = true ↔ userKey u ≤ userKey v := by
  simp [usersLE, usersLess, not_lt]

theorem usersLE_trans (u v w : User) (h₁ : usersLE u v) (h₂ : usersLE v w) :
    usersLE u w := by
  rw [usersLE_iff] at h₁ h₂ ⊢
  exact le_trans h₁ h₂

theorem usersLE_total (u v : User) : usersLE u v || usersLE v u := by
  rcases le_total (userKey u) (userKey v) with h | h
  · simp [(usersLE_iff u v).mpr h]
  · simp [(usersLE_iff v u).mpr h]

theorem toLower_empty : ("" : String).toLower = "" := by
  show String.map Char.toLower "" = ""
  rw [String.map_eq]
  rfl

theorem empty_string_le (s : String) : ("" : String) ≤ s := by
  rw [String.le_iff_toList_le]
  exact List.nil_le

/-! Concrete data used by the membership scenario and by witnesses. -/

/-- A profile whose only relevant fields are a real name and an email. -/
def mkProfile (nm em : String) : Profile :=
  { firstName := "", lastName := "", realName := nm, title := "",
    image := "", phone := "", email := em, status := "" }

/-- A non-deleted, non-bot user with email `a@tink.se`. -/
def tinkUser : User :=
  { name := "a", id := "U1", teamId := "T1", isBot := false, deleted := false,
    profile := mkProfile "a" "a@tink.se" }

/-- A non-deleted, non-bot user with email `a@nottink.se`. -/
def nottinkUser : User :=
  { name := "b", id := "U2", teamId := "T1", isBot := false, deleted := false,
    profile := mkProfile "b" "a@nottink.se" }

/-- Configuration whose `EMAIL_FILTER` is `tink.se`. -/
def tinkConfig : Config :=
  { emailFilter := "tink.se", slackApiToken := "x", slackTeam := "T1" }

/-- Configuration with the default empty `EMAIL_FILTER`. -/
def emptyConfig : Config :=
  { emailFilter := "", slackApiToken := "x", slackTeam := "T1" }

/-- An empty process-wide `userlist` as left by `init` (team set, no members). -/
def emptyUL : UserList :=
  { slackTeam := "T1", members := [] }

/-- A successfully read HTTP 200 response with no read error. -/
def okResp : RespBody :=
  { status := 200, bytes := "\x7b\x7d", readErr := none }

/-- An upstream HTTP 500 error response whose body is an HTML/plain error
page, not valid JSON. `client.Get` returns it with `err == nil`. -/
def upstreamErrorResp : RespBody :=
  { status := 500, bytes := "upstream error page", readErr := none }

/-- An upstream HTTP 200 response whose JSON body is Slack's failure payload,
which is valid JSON without a `members` key. -/
def slackErrorResp : RespBody :=
  { status := 200, bytes := "\x7b\"ok\":false,\"error\":\"invalid_auth\"\x7d",
    readErr := none }

/-- A parse oracle that always fails, as `json.Unmarshal` does on a body
that is not valid JSON (e.g. an HTML error page). -/
def failParse : String → List User → Except String (Option (List User)) :=
  fun _ _ => .error "bad json"

/-- A parse oracle that always yields an empty members array, as
`json.Unmarshal` does on a payload whose `members` key holds `[]`. -/
def okParseNil : String → List User → Except String (Option (List User)) :=
  fun _ _ => .ok (some [])

/-- A parse oracle that always succeeds without finding a `members` key, as
`json.Unmarshal` does on valid JSON lacking that key (e.g. Slack's
`"ok":false` failure payload): the previous members are left in place. -/
def noMembersParse : String → List User → Except String (Option (List User)) :=
  fun _ _ => .ok none

/-- A template oracle that never fails. -/
def okTmpl : UserList → Bool :=
  fun _ => false

/-- A template oracle that always fails. -/
def failTmpl : UserList → Bool :=
  fun _ => true

/-! The claim theorems. -/

/-- Claim C1: for every upstream member list and configured email suffix, the
rendered (filtered, sorted) list retains exactly those members that are in
the upstream list with `deleted = false`, `isBot = false`, and an email
ending with the configured suffix; in particular deleted or bot members are
never present in the rendered output. -/
theorem filter_retains_exactly (cfg : Config) (l : List User) (u : User) :
    u ∈ sortUsers (filterUsers cfg l) ↔
      u ∈ l ∧ u.deleted = false ∧ u.isBot = false ∧
        hasSuffix u.profile.email cfg.emailFilter = true := by
  simp [sortUsers, filterUsers, List.mem_filter, keepUser, Bool.and_eq_true,
    Bool.not_eq_true', and_assoc]

/-- Claim C2: the rendered list is sorted ascending by the lower-cased real name;
the sort is stable (two members with equal lower-cased real names keep their
relative order from the upstream response); and members with an empty real
name sort first (everything preceding such a member also has an empty
lower-cased name). -/
theorem sort_sorted_stable_empty_first (l : List User) :
    ((sortUsers l).Pairwise fun u v => userKey u ≤ userKey v)
    ∧ (∀ u v : User, userKey u = userKey v →
        [u, v].Sublist l → [u, v].Sublist (sortUsers l))
    ∧ ((sortUsers l).Pairwise fun u v =>
        v.profile.realName = "" → userKey u = "") := by
  refine ⟨?_, ?_, ?_⟩
  · exact (List.sorted_mergeSort usersLE_trans usersLE_total l).imp
      (fun h => (usersLE_iff _ _).mp h)
  · intro u v hk hsub
    exact List.pair_sublist_mergeSort usersLE_trans usersLE_total
      ((usersLE_iff u v).mpr (le_of_eq hk)) hsub
  · refine (List.sorted_mergeSort usersLE_trans usersLE_total l).imp ?_
    intro u v h hv
    have h' := (usersLE_iff u v).mp h
    have hv' : userKey v = "" := by simp [userKey, hv, toLower_empty]
    exact le_antisymm (hv' ▸ h') (empty_string_le _)

/-- Claim C3: the email filter is a literal string-suffix test: with suffix
`tink.se`, a non-deleted non-bot member with email `a@tink.se` is retained,
and one with email `a@nottink.se` is retained too. -/
theorem suffix_match_is_literal :
    filterUsers tinkConfig [tinkUser, nottinkUser] = [tinkUser, nottinkUser] := by
  decide

/-- Counterexample to claim C4 as stated: an upstream HTTP 500 error
response is not an error of `client.Get`, so the handler does not take the
500-with-error-text path for it. Concretely, with the error page body
failing to parse as JSON, the process dies fatally with no HTTP response at
all: the outcome's status is `none`, not 500, and the raw error body is
never echoed. -/
theorem upstream_http_error_no_500_counterexample :
    upstreamErrorResp.status = 500
    ∧ (indexHandler emptyConfig emptyUL (.success upstreamErrorResp) failParse okTmpl).1
        = .parseFatal "bad json"
    ∧ (Outcome.parseFatal "bad json").status = none
    ∧ ((indexHandler emptyConfig emptyUL (.success upstreamErrorResp) failParse okTmpl).1).isFetchError
        = false := by
  decide

/-- Claim C4 (amended): whenever `client.Get` fails at the transport level
(`err != nil`), the handler responds with HTTP 500 whose body is the raw
error text, the template is never invoked, and the handler performs no
further step with the single fetch result (no retry). An upstream non-2xx
HTTP response is not such a failure: for any successfully fetched response,
whatever its status code, the handler never takes the 500-with-error-text
fetch-error path, and the body flows into the JSON-parse step instead. -/
theorem fetch_transport_error_responds_500 (cfg : Config) (prev : UserList)
    (err : String) (parse : String → List User → Except String (Option (List User)))
    (tmplFails : UserList → Bool) (resp : RespBody) :
    indexHandler cfg prev (.failure err) parse tmplFails = (.fetchError err, prev)
    ∧ (Outcome.fetchError err).status = some 500
    ∧ (Outcome.fetchError err).errorText = some err
    ∧ (Outcome.fetchError err).templateInvoked = false
    ∧ ((indexHandler cfg prev (.success resp) parse tmplFails).1).isFetchError
        = false := by
  refine ⟨rfl, rfl, rfl, rfl, ?_⟩
  cases h : parse resp.bytes prev.members with
  | error e => simp [indexHandler, h, Outcome.isFetchError]
  | ok parsed =>
    cases h2 : tmplFails { slackTeam := prev.slackTeam, members := sortUsers (filterUsers cfg (parsed.getD prev.members)) } with
    | false => simp [indexHandler, h, unmarshalInto, h2, Outcome.isFetchError]
    | true => simp [indexHandler, h, unmarshalInto, h2, Outcome.isFetchError]

/-- Claim C5: whenever the response body fails to parse as JSON, the process
terminates fatally: no HTTP response is produced and the template is never
invoked. -/
theorem parse_failure_is_fatal (cfg : Config) (prev : UserList) (resp : RespBody)
    (e : String) (parse : String → List User → Except String (Option (List User)))
    (tmplFails : UserList → Bool) (h : parse resp.bytes prev.members = .error e) :
    (indexHandler cfg prev (.success resp) parse tmplFails).1 = .parseFatal e
    ∧ (Outcome.parseFatal e).respondsHTTP = false
    ∧ (Outcome.parseFatal e).templateInvoked = false := by
  refine ⟨?_, rfl, rfl⟩
  simp [indexHandler, h]

/-- Witness for C5 at a concrete input. -/
theorem parse_failure_is_fatal_witness :
    (indexHandler emptyConfig emptyUL (.success okResp) failParse okTmpl).1 =
        .parseFatal "bad json"
    ∧ (Outcome.parseFatal "bad json").respondsHTTP = false
    ∧ (Outcome.parseFatal "bad json").templateInvoked = false :=
  parse_failure_is_fatal emptyConfig emptyUL okResp "bad json" failParse okTmpl rfl

/-- Claim C6: whenever template execution fails, the handler responds with HTTP 500
and the exact body message `Oops. That's embarrassing. Please try again
later.`. -/
theorem template_failure_oops (cfg : Config) (prev : UserList) (resp : RespBody)
    (mso : Option (List User))
    (parse : String → List User → Except String (Option (List User)))
    (tmplFails : UserList → Bool) (hp : parse resp.bytes prev.members = .ok mso)
    (ht : tmplFails { slackTeam := prev.slackTeam,
                      members := sortUsers (filterUsers cfg (mso.getD prev.members)) } = true) :
    (indexHandler cfg prev (.success resp) parse tmplFails).1 = .templateError
    ∧ Outcome.templateError.status = some 500
    ∧ Outcome.templateError.errorText =
        some "Oops. That's embarrassing. Please try again later." := by
  refine ⟨?_, rfl, rfl⟩
  simp [indexHandler, hp, unmarshalInto, ht]

/-- Witness for C6 at a concrete input. -/
theorem template_failure_oops_witness :
    (indexHandler emptyConfig emptyUL (.success okResp) okParseNil failTmpl).1 =
        .templateError
    ∧ Outcome.templateError.status = some 500
    ∧ Outcome.templateError.errorText =
        some "Oops. That's embarrassing. Please try again later." :=
  template_failure_oops emptyConfig emptyUL okResp (some []) okParseNil failTmpl rfl rfl

/-- Claim C7: filtering is idempotent — applying the filter to an already-filtered
list returns it unchanged — and filtering mutates no member record (every
retained record is one of the input records). -/
theorem filter_idempotent (cfg : Config) (l : List User) :
    filterUsers cfg (filterUsers cfg l) = filterUsers cfg l
    ∧ ∀ u, u ∈ filterUsers cfg l → u ∈ l := by
  constructor
  · simp [filterUsers, List.filter_filter]
  · intro u hu
    exact List.mem_of_mem_filter hu

/-- Counterexample to claim C8 as stated: `json.Unmarshal` merges, it does
not overwrite wholesale. With the same configuration, the same upstream
response (Slack's valid-JSON `"ok":false` failure payload, which has no
`members` key) and the same oracles, two requests that differ only in the
previous request's member list produce different rendered outputs; in
particular the previous request's member is rendered again. -/
theorem cross_request_leak_counterexample :
    ((indexHandler emptyConfig { slackTeam := "T1", members := [] }
        (.success slackErrorResp) noMembersParse okTmpl).1 ==
      (indexHandler emptyConfig { slackTeam := "T1", members := [tinkUser] }
        (.success slackErrorResp) noMembersParse okTmpl).1) = false
    ∧ (indexHandler emptyConfig { slackTeam := "T1", members := [tinkUser] }
        (.success slackErrorResp) noMembersParse okTmpl).1 =
        .page { slackTeam := "T1", members := [tinkUser] } := by
  have hk : keepUser emptyConfig tinkUser = true := by decide
  have h1 : (indexHandler emptyConfig { slackTeam := "T1", members := [] }
      (.success slackErrorResp) noMembersParse okTmpl).1 =
      .page { slackTeam := "T1", members := [] } := by
    simp [indexHandler, noMembersParse, unmarshalInto, okTmpl, filterUsers, sortUsers]
  have h2 : (indexHandler emptyConfig { slackTeam := "T1", members := [tinkUser] }
      (.success slackErrorResp) noMembersParse okTmpl).1 =
      .page { slackTeam := "T1", members := [tinkUser] } := by
    simp [indexHandler, noMembersParse, unmarshalInto, okTmpl, filterUsers,
      List.filter_cons, hk, sortUsers]
  refine ⟨?_, h2⟩
  rw [h1, h2]
  decide

/-- Claim C8 (amended): `json.Unmarshal` merges into the process-wide
`userlist` rather than overwriting it wholesale, so the rendered output of a
request can depend on the previous request's member list. When a
successfully parsed payload has no `members` key, the previous request's
members stay in place and are re-filtered, re-sorted and rendered; only when
the payload carries a `members` key are the stored members replaced by this
request's decoded, filtered and sorted array. -/
theorem unmarshal_merges_previous_members (cfg : Config) (prev : UserList)
    (resp : RespBody) (parse : String → List User → Except String (Option (List User)))
    (tmplFails : UserList → Bool) :
    (parse resp.bytes prev.members = .ok none →
      tmplFails { slackTeam := prev.slackTeam, members := sortUsers (filterUsers cfg prev.members) } = false →
      (indexHandler cfg prev (.success resp) parse tmplFails).1 =
        .page { slackTeam := prev.slackTeam, members := sortUsers (filterUsers cfg prev.members) })
    ∧ (∀ ms : List User, parse resp.bytes prev.members = .ok (some ms) →
      (indexHandler cfg prev (.success resp) parse tmplFails).2.members =
        sortUsers (filterUsers cfg ms)) := by
  constructor
  · intro hp ht
    simp [indexHandler, hp, unmarshalInto, ht]
  · intro ms hp
    cases h2 : tmplFails { slackTeam := prev.slackTeam, members := sortUsers (filterUsers cfg ms) } with
    | false => simp [indexHandler, hp, unmarshalInto, h2]
    | true => simp [indexHandler, hp, unmarshalInto, h2]

/-- Claim C9: the filter preserves order — the filtered list is a subsequence of
the input, so any two retained members keep their relative order and each
retained record is identical to its input record. -/
theorem filter_preserves_order (cfg : Config) (l : List User) :
    (filterUsers cfg l).Sublist l :=
  List.filter_sublist l

/-- Claim C10: an error while reading the upstream response body is silently
discarded — the handler behaves exactly as if the read succeeded on the
bytes obtained, and the result is never the fetch-error (HTTP 500) path. -/
theorem read_error_discarded (cfg : Config) (prev : UserList) (st : Nat)
    (b : String) (e₁ e₂ : Option String)
    (parse : String → List User → Except String (Option (List User)))
    (tmplFails : UserList → Bool) :
    indexHandler cfg prev (.success ⟨st, b, e₁⟩) parse tmplFails =
        indexHandler cfg prev (.success ⟨st, b, e₂⟩) parse tmplFails
    ∧ ((indexHandler cfg prev (.success ⟨st, b, e₁⟩) parse tmplFails).1).isFetchError
        = false := by
  constructor
  · rfl
  · cases h : parse b prev.members with
    | error e => simp [indexHandler, h, Outcome.isFetchError]
    | ok parsed =>
      cases h2 : tmplFails { slackTeam := prev.slackTeam, members := sortUsers (filterUsers cfg (parsed.getD prev.members)) } with
      | false => simp [indexHandler, h, unmarshalInto, h2, Outcome.isFetchError]
      | true => simp [indexHandler, h, unmarshalInto, h2, Outcome.isFetchError]

end Facelist
